import Mathlib

/-!
Verification of the Geertsma disk-shaped reservoir model
(`geertsma_disk.py`): elastic displacement and stress fields produced by a
disk-shaped reservoir in a half-space.

Modelling choices:
* Double-precision floats are modelled as real numbers (`ℝ`).
* The elliptic-integral primitives `ellipk`, `ellipe`, `ellipkinc`,
  `ellipeinc` come from the external special-function library (scipy); they
  are abstracted as a parameter structure `Ellip`, since every claim is
  parametric in their values.
* The compaction coefficient `Cm` is imported by the source from an external
  module (`from compaction import Cm`); it is likewise abstracted as a
  function parameter `Cm : ℝ → ℝ → ℝ`.
* A set of N evaluation points is modelled by an arbitrary index type `ι`:
  a 2d coordinate array with three rows is `Fin 3 → ι → ℝ`, and every
  element-wise numpy operation becomes a pointwise operation on `ι → ℝ`.
* For the validation layer, the dynamically-shaped Python inputs are
  modelled explicitly: the disk descriptor is a `List ℝ` (its length is
  checked), the coordinate array is a `List (List ℝ)` of rows (the row
  count is checked), and a value that is either a Python scalar or a numpy
  array is an `NpValue` (checked by `np.isscalar`).  A failing `assert`
  becomes `Except.error` with the assertion message.
-/

namespace GeertsmaDisk

/-- The special-function provider: complete and incomplete elliptic
integrals of the first and second kind, in the parameter ("m") convention,
exactly the four scipy functions imported by the source. -/
structure Ellip where
  ellipk : ℝ → ℝ
  ellipe : ℝ → ℝ
  ellipkinc : ℝ → ℝ → ℝ
  ellipeinc : ℝ → ℝ → ℝ

namespace np

/-- `np.sign`: elementwise sign, +1 for positive, -1 for negative, 0 at 0. -/
noncomputable def sign (x : ℝ) : ℝ :=
  if x > 0 then 1 else if x < 0 then -1 else 0

/-- `np.heaviside(x1, x2)`: 0 for `x1 < 0`, `x2` at `x1 = 0`, 1 for `x1 > 0`. -/
noncomputable def heaviside (x1 x2 : ℝ) : ℝ :=
  if x1 < 0 then 0 else if x1 = 0 then x2 else 1

/-- A Python value that is either a scalar or a numpy array, as
distinguished by `np.isscalar`. -/
inductive NpValue where
  | scalar (v : ℝ)
  | array (vs : List ℝ)

/-- `np.isscalar`: true exactly on scalars. -/
def isscalar : NpValue → Bool
  | .scalar _ => true
  | .array _ => false

end np

/-- The elliptic modulus `m = 4*R*r/(q**2 + (r+R)**2)` computed at the top
of every kernel `Int1`, `Int2`, `Int3`, `Int4`, `Int6`. -/
noncomputable def modulus (q r R : ℝ) : ℝ :=
  4*R*r/(q^2 + (r+R)^2)

/-- Integral I1 (source `Int1`). -/
noncomputable def Int1 (sf : Ellip) (q r R : ℝ) : ℝ :=
  let m := 4*R*r/(q^2 + (r+R)^2)
  let K := sf.ellipk m
  let E0 := sf.ellipe m
  let I1 := 2*((1-(m/2))*K - E0)/(Real.pi*Real.sqrt (m*r*R))
  I1

/-- Integral I2 (source `Int2`). -/
noncomputable def Int2 (sf : Ellip) (q r R : ℝ) : ℝ :=
  let m := 4*R*r/(q^2 + (r+R)^2)
  let K := sf.ellipk m
  let E0 := sf.ellipe m
  let I2 := q*Real.sqrt m*((1-m/2)*E0/(1-m) - K)/(2*Real.pi*(Real.sqrt (r*R))^3)
  I2

/-- Integral I3 (source `Int3`), with Heuman's lambda and the Jacobi zeta
function, and the two `np.heaviside(·, 0.5)` step terms. -/
noncomputable def Int3 (sf : Ellip) (q r R : ℝ) : ℝ :=
  let m := 4*R*r/(q^2 + (r+R)^2)
  let K0 := sf.ellipk m
  let K1 := sf.ellipk (1-m)
  let E1 := sf.ellipe (1-m)
  let beta := Real.arcsin (q/Real.sqrt (q^2 + (R-r)^2))
  let K2 := sf.ellipkinc beta (1-m)
  let E2 := sf.ellipeinc beta (1-m)
  let Z := E2 - E1*K2/K1
  let lamb := K2/K1 + 2*K0*Z/Real.pi
  let I3 := -q*Real.sqrt m*K0/(2*Real.pi*R*Real.sqrt (r*R))
    + (np.heaviside (r-R) 0.5 - np.heaviside (R-r) 0.5)*lamb/(2*R)
    + np.heaviside (R-r) 0.5/R
  I3

/-- Integral I4 (source `Int4`). -/
noncomputable def Int4 (sf : Ellip) (q r R : ℝ) : ℝ :=
  let m := 4*R*r/(q^2 + (r+R)^2)
  let K0 := sf.ellipk m
  let E0 := sf.ellipe m
  let I4 := (Real.sqrt m)^3*(R^2-r^2-q^2)*E0/(8*Real.pi*(Real.sqrt (r*R))^3*R*(1-m))
    + Real.sqrt m*K0/(2*Real.pi*R*Real.sqrt (r*R))
  I4

/-- Integral I6 (source `Int6`). -/
noncomputable def Int6 (sf : Ellip) (q r R : ℝ) : ℝ :=
  let m := 4*R*r/(q^2 + (r+R)^2)
  let K0 := sf.ellipk m
  let E0 := sf.ellipe m
  let I6 := q*(Real.sqrt m)^3*(3*E0 + m*(R^2-r^2-q^2)*((1-m/2)*E0/(1-m) - K0/4)/(r*R))/(8*Real.pi*(Real.sqrt (r*R))^3*R*(1-m))
  I6

/-- Shear modulus `G(poisson, young) = young/(2*(1+poisson))` (source `G`). -/
noncomputable def G (poisson young : ℝ) : ℝ :=
  young/(2*(1+poisson))

/-- The disk descriptor after unpacking `y0, x0, D, R, h = disk`. -/
structure DiskDescriptor where
  y0 : ℝ
  x0 : ℝ
  D : ℝ
  R : ℝ
  h : ℝ

/-- Core of `Geertsma_disk_displacement` (after the asserts): radial and
vertical displacement at every evaluation point. -/
noncomputable def Geertsma_disk_displacement {ι : Type} (sf : Ellip)
    (Cm : ℝ → ℝ → ℝ) (coordinates : Fin 3 → ι → ℝ) (disk : DiskDescriptor)
    (pressure poisson young : ℝ) : (ι → ℝ) × (ι → ℝ) :=
  let y0 := disk.y0
  let x0 := disk.x0
  let D := disk.D
  let R := disk.R
  let h := disk.h
  let Y := fun i => coordinates 0 i - y0
  let X := fun i => coordinates 1 i - x0
  let Z := fun i => coordinates 2 i - D
  let r := fun i => Real.sqrt ((Y i)^2 + (X i)^2 + (Z i)^2)
  let Z2 := fun i => Z i + 2*D
  let ur := fun i => -pressure*(
    Int1 sf |Z i| (r i) R
    + (3 - 4*poisson)*Int1 sf (Z2 i) (r i) R
    - 2*(coordinates 2 i)*Int2 sf (Z2 i) (r i) R)
  let uz := fun i => pressure*(
    np.sign (Z i)*Int3 sf |Z i| (r i) R
    - (3 - 4*poisson)*Int3 sf (Z2 i) (r i) R
    - 2*(coordinates 2 i)*Int4 sf (Z2 i) (r i) R)
  let ur2 := fun i => ur i * (Cm poisson young*R*h/2)
  let uz2 := fun i => uz i * (Cm poisson young*R*h/2)
  let result := (ur2, uz2)
  result

/-- Core of `Geertsma_disk_stress` (after the asserts): radial, tangential
and vertical stress at every evaluation point. -/
noncomputable def Geertsma_disk_stress {ι : Type} (sf : Ellip)
    (Cm : ℝ → ℝ → ℝ) (coordinates : Fin 3 → ι → ℝ) (disk : DiskDescriptor)
    (pressure poisson young : ℝ) : (ι → ℝ) × (ι → ℝ) × (ι → ℝ) :=
  let y0 := disk.y0
  let x0 := disk.x0
  let D := disk.D
  let R := disk.R
  let h := disk.h
  let Y := fun i => coordinates 0 i - y0
  let X := fun i => coordinates 1 i - x0
  let Z := fun i => coordinates 2 i - D
  let r := fun i => Real.sqrt ((Y i)^2 + (X i)^2 + (Z i)^2)
  let Z2 := fun i => Z i + 2*D
  let sr := fun i => pressure*(
    Int4 sf |Z i| (r i) R
    + 3*Int4 sf (Z2 i) (r i) R
    - 2*(coordinates 2 i)*Int6 sf (Z2 i) (r i) R
    - Int1 sf |Z i| (r i) R/(r i)
    + (3 - 4*poisson)*Int1 sf (Z2 i) (r i) R/(r i)
    - 2*(coordinates 2 i)*Int2 sf (Z2 i) (r i) R/(r i))
  let st := fun i => pressure*(
    4*poisson*Int4 sf (Z2 i) (r i) R
    + Int1 sf |Z i| (r i) R/(r i)
    + (3 - 4*poisson)*Int1 sf (Z2 i) (r i) R/(r i)
    - 2*(coordinates 2 i)*Int2 sf (Z2 i) (r i) R/(r i))
  let sz := fun i => -pressure*(
    -Int4 sf |Z i| (r i) R
    + Int4 sf (Z2 i) (r i) R
    + 2*(coordinates 2 i)*Int6 sf (Z2 i) (r i) R)
  let aux := G poisson young*Cm poisson young*R*h
  let result := (fun i => sr i * aux, fun i => st i * aux, fun i => sz i * aux)
  result

/-- Read the three rows of a validated coordinate array as functions of the
column index. -/
def rowsToFun (coordinates : List (List ℝ)) : Fin 3 → ℕ → ℝ :=
  fun k i => (coordinates.getD k []).getD i 0

/-- Unpack a validated 5-element disk list, `y0, x0, D, R, h = disk`. -/
def diskToDescriptor (disk : List ℝ) : DiskDescriptor :=
  ⟨disk.getD 0 0, disk.getD 1 0, disk.getD 2 0, disk.getD 3 0, disk.getD 4 0⟩

/-- `Geertsma_disk_displacement` with its five `assert` statements, in
source order; a failing assert is `Except.error` with its message. -/
noncomputable def Geertsma_disk_displacement_checked (sf : Ellip)
    (Cm : ℝ → ℝ → ℝ) (coordinates : List (List ℝ)) (disk : List ℝ)
    (pressure poisson young : np.NpValue) :
    Except String ((ℕ → ℝ) × (ℕ → ℝ)) :=
  if disk.length = 5 then
    if coordinates.length = 3 then
      match pressure, poisson, young with
      | .scalar p, .scalar nu, .scalar E =>
        .ok (Geertsma_disk_displacement sf Cm (rowsToFun coordinates)
          (diskToDescriptor disk) p nu E)
      | .array _, _, _ => .error "pressure must be a scalar"
      | .scalar _, .array _, _ => .error "poisson must be a scalar"
      | .scalar _, .scalar _, .array _ => .error "young must be a scalar"
    else .error "coordinates must have 3 rows"
  else .error "disk must contain y0, x0, D, R, and h"

/-- `Geertsma_disk_stress` with its five `assert` statements, in source
order; a failing assert is `Except.error` with its message. -/
noncomputable def Geertsma_disk_stress_checked (sf : Ellip)
    (Cm : ℝ → ℝ → ℝ) (coordinates : List (List ℝ)) (disk : List ℝ)
    (pressure poisson young : np.NpValue) :
    Except String ((ℕ → ℝ) × (ℕ → ℝ) × (ℕ → ℝ)) :=
  if disk.length = 5 then
    if coordinates.length = 3 then
      match pressure, poisson, young with
      | .scalar p, .scalar nu, .scalar E =>
        .ok (Geertsma_disk_stress sf Cm (rowsToFun coordinates)
          (diskToDescriptor disk) p nu E)
      | .array _, _, _ => .error "pressure must be a scalar"
      | .scalar _, .array _, _ => .error "poisson must be a scalar"
      | .scalar _, .scalar _, .array _ => .error "young must be a scalar"
    else .error "coordinates must have 3 rows"
  else .error "disk must contain y0, x0, D, R, and h"

/-- Memory-state version of `Geertsma_disk_displacement`: besides the
outputs it returns the final contents of the two input buffers.  Every
operation of the source body (lines 55-78) binds a fresh array or scalar
(`Y`, `X`, `Z`, `r`, `Z2`, `ur`, `uz`; the in-place `ur *= ...` writes to
the locally created `ur`), and no operation writes into `coordinates` or
`disk`, so the final contents of the input buffers are their initial
contents. -/
noncomputable def Geertsma_disk_displacement_mem (sf : Ellip)
    (Cm : ℝ → ℝ → ℝ) (coordinates : List (List ℝ)) (disk : List ℝ)
    (pressure poisson young : ℝ) :
    ((ℕ → ℝ) × (ℕ → ℝ)) × (List (List ℝ) × List ℝ) :=
  (Geertsma_disk_displacement sf Cm (rowsToFun coordinates)
    (diskToDescriptor disk) pressure poisson young, (coordinates, disk))

/-- Memory-state version of `Geertsma_disk_stress`: besides the outputs it
returns the final contents of the two input buffers (see
`Geertsma_disk_displacement_mem`; the stress body, lines 117-154, likewise
only binds fresh values). -/
noncomputable def Geertsma_disk_stress_mem (sf : Ellip)
    (Cm : ℝ → ℝ → ℝ) (coordinates : List (List ℝ)) (disk : List ℝ)
    (pressure poisson young : ℝ) :
    ((ℕ → ℝ) × (ℕ → ℝ) × (ℕ → ℝ)) × (List (List ℝ) × List ℝ) :=
  (Geertsma_disk_stress sf Cm (rowsToFun coordinates)
    (diskToDescriptor disk) pressure poisson young, (coordinates, disk))

/-- A trivial special-function provider, used to instantiate theorems at
concrete inputs. -/
def sfZero : Ellip := ⟨fun _ => 0, fun _ => 0, fun _ _ => 0, fun _ _ => 0⟩

/-- A concrete pair of evaluation points (3,0,5) and (0,3,5), both at
horizontal distance 3 from the vertical axis through the origin. -/
noncomputable def coordsTwo : Fin 3 → Fin 2 → ℝ := fun k i =>
  if k = 0 then (if i = 0 then 3 else 0)
  else if k = 1 then (if i = 0 then 0 else 3)
  else 5

/-- C1: for every valid input, the vertical displacement returned by
`Geertsma_disk_displacement` equals
`pressure*(sign(Z)*I3(|Z|,r,R) - (3-4*poisson)*I3(Z2,r,R) - 2*z*I4(Z2,r,R))
  *Cm(poisson,young)*R*h/2`
with `Z = z - D` the shifted vertical coordinate and `z` the original
unshifted vertical coordinate in the last term; and `sign` returns
-1/0/+1 elementwise, with 0 only at `Z = 0` exactly. -/
theorem uz_matches_spec_formula {ι : Type} (sf : Ellip) (Cm : ℝ → ℝ → ℝ)
    (coordinates : Fin 3 → ι → ℝ) (disk : DiskDescriptor)
    (pressure poisson young : ℝ) (i : ι) :
    (Geertsma_disk_displacement sf Cm coordinates disk pressure poisson young).2 i =
      pressure*(
        np.sign (coordinates 2 i - disk.D)
          *Int3 sf |coordinates 2 i - disk.D|
            (Real.sqrt ((coordinates 0 i - disk.y0)^2 + (coordinates 1 i - disk.x0)^2
              + (coordinates 2 i - disk.D)^2)) disk.R
        - (3 - 4*poisson)*Int3 sf ((coordinates 2 i - disk.D) + 2*disk.D)
            (Real.sqrt ((coordinates 0 i - disk.y0)^2 + (coordinates 1 i - disk.x0)^2
              + (coordinates 2 i - disk.D)^2)) disk.R
        - 2*(coordinates 2 i)*Int4 sf ((coordinates 2 i - disk.D) + 2*disk.D)
            (Real.sqrt ((coordinates 0 i - disk.y0)^2 + (coordinates 1 i - disk.x0)^2
              + (coordinates 2 i - disk.D)^2)) disk.R)
        * (Cm poisson young*disk.R*disk.h/2)
    ∧ (∀ t : ℝ, np.sign t = -1 ∨ np.sign t = 0 ∨ np.sign t = 1)
    ∧ (∀ t : ℝ, np.sign t = 0 ↔ t = 0) := by
  refine ⟨rfl, ?_, ?_⟩
  · intro t
    unfold np.sign
    split_ifs with h1 h2
    · exact Or.inr (Or.inr rfl)
    · exact Or.inl rfl
    · exact Or.inr (Or.inl rfl)
  · intro t
    unfold np.sign
    split_ifs with h1 h2
    · exact ⟨fun h => absurd h one_ne_zero,
        fun h => ((lt_irrefl (0:ℝ)) (h ▸ h1)).elim⟩
    · refine ⟨fun h => ?_, fun h => ((lt_irrefl (0:ℝ)) (h ▸ h2)).elim⟩
      norm_num at h
    · exact ⟨fun _ => le_antisymm (not_lt.mp h1) (not_lt.mp h2), fun _ => rfl⟩

/-- C4: for every valid input, the radial displacement returned by
`Geertsma_disk_displacement` equals
`-pressure*(I1(|Z|,r,R) + (3-4*poisson)*I1(Z2,r,R) - 2*z*I2(Z2,r,R))
  *Cm(poisson,young)*R*h/2`
with `z` the original unshifted vertical coordinate in the last term. -/
theorem ur_matches_spec_formula {ι : Type} (sf : Ellip) (Cm : ℝ → ℝ → ℝ)
    (coordinates : Fin 3 → ι → ℝ) (disk : DiskDescriptor)
    (pressure poisson young : ℝ) (i : ι) :
    (Geertsma_disk_displacement sf Cm coordinates disk pressure poisson young).1 i =
      (-pressure*(
        Int1 sf |coordinates 2 i - disk.D|
            (Real.sqrt ((coordinates 0 i - disk.y0)^2 + (coordinates 1 i - disk.x0)^2
              + (coordinates 2 i - disk.D)^2)) disk.R
        + (3 - 4*poisson)*Int1 sf ((coordinates 2 i - disk.D) + 2*disk.D)
            (Real.sqrt ((coordinates 0 i - disk.y0)^2 + (coordinates 1 i - disk.x0)^2
              + (coordinates 2 i - disk.D)^2)) disk.R
        - 2*(coordinates 2 i)*Int2 sf ((coordinates 2 i - disk.D) + 2*disk.D)
            (Real.sqrt ((coordinates 0 i - disk.y0)^2 + (coordinates 1 i - disk.x0)^2
              + (coordinates 2 i - disk.D)^2)) disk.R))
        * (Cm poisson young*disk.R*disk.h/2) :=
  rfl

/-- C3: both `Geertsma_disk_displacement` and `Geertsma_disk_stress` derive
the per-point geometry as shifted coordinates `Y = y - y0`, `X = x - x0`,
`Z = z - D`, the full 3D radius `r = sqrt(Y^2 + X^2 + Z^2)` (not the
horizontal radius `sqrt(Y^2 + X^2)`), and the mirror depth term
`Z2 = Z + 2*D`: every kernel argument in every output component is exactly
one of `|Z|`, `Z2`, `r`, `R`. -/
theorem geometry_shifted_radius_mirror {ι : Type} (sf : Ellip)
    (Cm : ℝ → ℝ → ℝ) (coordinates : Fin 3 → ι → ℝ) (disk : DiskDescriptor)
    (pressure poisson young : ℝ) (i : ι) :
    (Geertsma_disk_displacement sf Cm coordinates disk pressure poisson young).1 i =
      (-pressure*(
        Int1 sf |coordinates 2 i - disk.D|
          (Real.sqrt ((coordinates 0 i - disk.y0)^2 + (coordinates 1 i - disk.x0)^2
            + (coordinates 2 i - disk.D)^2)) disk.R
        + (3 - 4*poisson)*Int1 sf ((coordinates 2 i - disk.D) + 2*disk.D)
          (Real.sqrt ((coordinates 0 i - disk.y0)^2 + (coordinates 1 i - disk.x0)^2
            + (coordinates 2 i - disk.D)^2)) disk.R
        - 2*(coordinates 2 i)*Int2 sf ((coordinates 2 i - disk.D) + 2*disk.D)
          (Real.sqrt ((coordinates 0 i - disk.y0)^2 + (coordinates 1 i - disk.x0)^2
            + (coordinates 2 i - disk.D)^2)) disk.R))
        * (Cm poisson young*disk.R*disk.h/2)
    ∧ (Geertsma_disk_displacement sf Cm coordinates disk pressure poisson young).2 i =
      pressure*(
        np.sign (coordinates 2 i - disk.D)
          *Int3 sf |coordinates 2 i - disk.D|
          (Real.sqrt ((coordinates 0 i - disk.y0)^2 + (coordinates 1 i - disk.x0)^2
            + (coordinates 2 i - disk.D)^2)) disk.R
        - (3 - 4*poisson)*Int3 sf ((coordinates 2 i - disk.D) + 2*disk.D)
          (Real.sqrt ((coordinates 0 i - disk.y0)^2 + (coordinates 1 i - disk.x0)^2
            + (coordinates 2 i - disk.D)^2)) disk.R
        - 2*(coordinates 2 i)*Int4 sf ((coordinates 2 i - disk.D) + 2*disk.D)
          (Real.sqrt ((coordinates 0 i - disk.y0)^2 + (coordinates 1 i - disk.x0)^2
            + (coordinates 2 i - disk.D)^2)) disk.R)
        * (Cm poisson young*disk.R*disk.h/2)
    ∧ (Geertsma_disk_stress sf Cm coordinates disk pressure poisson young).1 i =
      pressure*(
        Int4 sf |coordinates 2 i - disk.D|
          (Real.sqrt ((coordinates 0 i - disk.y0)^2 + (coordinates 1 i - disk.x0)^2
            + (coordinates 2 i - disk.D)^2)) disk.R
        + 3*Int4 sf ((coordinates 2 i - disk.D) + 2*disk.D)
          (Real.sqrt ((coordinates 0 i - disk.y0)^2 + (coordinates 1 i - disk.x0)^2
            + (coordinates 2 i - disk.D)^2)) disk.R
        - 2*(coordinates 2 i)*Int6 sf ((coordinates 2 i - disk.D) + 2*disk.D)
          (Real.sqrt ((coordinates 0 i - disk.y0)^2 + (coordinates 1 i - disk.x0)^2
            + (coordinates 2 i - disk.D)^2)) disk.R
        - Int1 sf |coordinates 2 i - disk.D|
          (Real.sqrt ((coordinates 0 i - disk.y0)^2 + (coordinates 1 i - disk.x0)^2
            + (coordinates 2 i - disk.D)^2)) disk.R
          /(Real.sqrt ((coordinates 0 i - disk.y0)^2 + (coordinates 1 i - disk.x0)^2
            + (coordinates 2 i - disk.D)^2))
        + (3 - 4*poisson)*Int1 sf ((coordinates 2 i - disk.D) + 2*disk.D)
          (Real.sqrt ((coordinates 0 i - disk.y0)^2 + (coordinates 1 i - disk.x0)^2
            + (coordinates 2 i - disk.D)^2)) disk.R
          /(Real.sqrt ((coordinates 0 i - disk.y0)^2 + (coordinates 1 i - disk.x0)^2
            + (coordinates 2 i - disk.D)^2))
        - 2*(coordinates 2 i)*Int2 sf ((coordinates 2 i - disk.D) + 2*disk.D)
          (Real.sqrt ((coordinates 0 i - disk.y0)^2 + (coordinates 1 i - disk.x0)^2
            + (coordinates 2 i - disk.D)^2)) disk.R
          /(Real.sqrt ((coordinates 0 i - disk.y0)^2 + (coordinates 1 i - disk.x0)^2
            + (coordinates 2 i - disk.D)^2)))
        * (G poisson young*Cm poisson young*disk.R*disk.h)
    ∧ (Geertsma_disk_stress sf Cm coordinates disk pressure poisson young).2.1 i =
      pressure*(
        4*poisson*Int4 sf ((coordinates 2 i - disk.D) + 2*disk.D)
          (Real.sqrt ((coordinates 0 i - disk.y0)^2 + (coordinates 1 i - disk.x0)^2
            + (coordinates 2 i - disk.D)^2)) disk.R
        + Int1 sf |coordinates 2 i - disk.D|
          (Real.sqrt ((coordinates 0 i - disk.y0)^2 + (coordinates 1 i - disk.x0)^2
            + (coordinates 2 i - disk.D)^2)) disk.R
          /(Real.sqrt ((coordinates 0 i - disk.y0)^2 + (coordinates 1 i - disk.x0)^2
            + (coordinates 2 i - disk.D)^2))
        + (3 - 4*poisson)*Int1 sf ((coordinates 2 i - disk.D) + 2*disk.D)
          (Real.sqrt ((coordinates 0 i - disk.y0)^2 + (coordinates 1 i - disk.x0)^2
            + (coordinates 2 i - disk.D)^2)) disk.R
          /(Real.sqrt ((coordinates 0 i - disk.y0)^2 + (coordinates 1 i - disk.x0)^2
            + (coordinates 2 i - disk.D)^2))
        - 2*(coordinates 2 i)*Int2 sf ((coordinates 2 i - disk.D) + 2*disk.D)
          (Real.sqrt ((coordinates 0 i - disk.y0)^2 + (coordinates 1 i - disk.x0)^2
            + (coordinates 2 i - disk.D)^2)) disk.R
          /(Real.sqrt ((coordinates 0 i - disk.y0)^2 + (coordinates 1 i - disk.x0)^2
            + (coordinates 2 i - disk.D)^2)))
        * (G poisson young*Cm poisson young*disk.R*disk.h)
    ∧ (Geertsma_disk_stress sf Cm coordinates disk pressure poisson young).2.2 i =
      (-pressure*(
        -Int4 sf |coordinates 2 i - disk.D|
          (Real.sqrt ((coordinates 0 i - disk.y0)^2 + (coordinates 1 i - disk.x0)^2
            + (coordinates 2 i - disk.D)^2)) disk.R
        + Int4 sf ((coordinates 2 i - disk.D) + 2*disk.D)
          (Real.sqrt ((coordinates 0 i - disk.y0)^2 + (coordinates 1 i - disk.x0)^2
            + (coordinates 2 i - disk.D)^2)) disk.R
        + 2*(coordinates 2 i)*Int6 sf ((coordinates 2 i - disk.D) + 2*disk.D)
          (Real.sqrt ((coordinates 0 i - disk.y0)^2 + (coordinates 1 i - disk.x0)^2
            + (coordinates 2 i - disk.D)^2)) disk.R))
        * (G poisson young*Cm poisson young*disk.R*disk.h) :=
  ⟨rfl, rfl, rfl, rfl, rfl⟩

/-- C9: each of the three stress components returned by
`Geertsma_disk_stress` equals the corresponding linear combination of
`Int1`, `Int2`, `Int4`, `Int6` kernel values multiplied by the same common
factor `aux = G(poisson,young)*Cm(poisson,young)*R*h`. -/
theorem stress_common_factor {ι : Type} (sf : Ellip) (Cm : ℝ → ℝ → ℝ)
    (coordinates : Fin 3 → ι → ℝ) (disk : DiskDescriptor)
    (pressure poisson young : ℝ) (i : ι) :
    (Geertsma_disk_stress sf Cm coordinates disk pressure poisson young).1 i =
      (fun Zabs Z2 r z => pressure*(
        Int4 sf Zabs r disk.R
        + 3*Int4 sf Z2 r disk.R
        - 2*z*Int6 sf Z2 r disk.R
        - Int1 sf Zabs r disk.R/r
        + (3 - 4*poisson)*Int1 sf Z2 r disk.R/r
        - 2*z*Int2 sf Z2 r disk.R/r)
        * (G poisson young*Cm poisson young*disk.R*disk.h))
        |coordinates 2 i - disk.D| ((coordinates 2 i - disk.D) + 2*disk.D)
        (Real.sqrt ((coordinates 0 i - disk.y0)^2 + (coordinates 1 i - disk.x0)^2
          + (coordinates 2 i - disk.D)^2)) (coordinates 2 i)
    ∧ (Geertsma_disk_stress sf Cm coordinates disk pressure poisson young).2.1 i =
      (fun Zabs Z2 r z => pressure*(
        4*poisson*Int4 sf Z2 r disk.R
        + Int1 sf Zabs r disk.R/r
        + (3 - 4*poisson)*Int1 sf Z2 r disk.R/r
        - 2*z*Int2 sf Z2 r disk.R/r)
        * (G poisson young*Cm poisson young*disk.R*disk.h))
        |coordinates 2 i - disk.D| ((coordinates 2 i - disk.D) + 2*disk.D)
        (Real.sqrt ((coordinates 0 i - disk.y0)^2 + (coordinates 1 i - disk.x0)^2
          + (coordinates 2 i - disk.D)^2)) (coordinates 2 i)
    ∧ (Geertsma_disk_stress sf Cm coordinates disk pressure poisson young).2.2 i =
      (fun Zabs Z2 r z => (-pressure*(
        -Int4 sf Zabs r disk.R
        + Int4 sf Z2 r disk.R
        + 2*z*Int6 sf Z2 r disk.R))
        * (G poisson young*Cm poisson young*disk.R*disk.h))
        |coordinates 2 i - disk.D| ((coordinates 2 i - disk.D) + 2*disk.D)
        (Real.sqrt ((coordinates 0 i - disk.y0)^2 + (coordinates 1 i - disk.x0)^2
          + (coordinates 2 i - disk.D)^2)) (coordinates 2 i) :=
  ⟨rfl, rfl, rfl⟩

/-- C10: neither function mutates its inputs: in the memory-state model,
after a call to the displacement or stress function the coordinate array
and the disk descriptor hold exactly the values they held before. -/
theorem inputs_unchanged (sf : Ellip) (Cm : ℝ → ℝ → ℝ)
    (coordinates : List (List ℝ)) (disk : List ℝ)
    (pressure poisson young : ℝ) :
    (Geertsma_disk_displacement_mem sf Cm coordinates disk
        pressure poisson young).2 = (coordinates, disk)
    ∧ (Geertsma_disk_stress_mem sf Cm coordinates disk
        pressure poisson young).2 = (coordinates, disk) :=
  ⟨rfl, rfl⟩

/-- C7: all outputs are odd in the pressure argument: evaluating the
displacement function at `-pressure` yields exactly the negation of `ur`
and `uz` obtained at `+pressure`, and likewise for the three stress
components. -/
theorem outputs_odd_in_pressure {ι : Type} (sf : Ellip) (Cm : ℝ → ℝ → ℝ)
    (coordinates : Fin 3 → ι → ℝ) (disk : DiskDescriptor)
    (pressure poisson young : ℝ) (i : ι) :
    (Geertsma_disk_displacement sf Cm coordinates disk (-pressure) poisson young).1 i =
      -((Geertsma_disk_displacement sf Cm coordinates disk pressure poisson young).1 i)
    ∧ (Geertsma_disk_displacement sf Cm coordinates disk (-pressure) poisson young).2 i =
      -((Geertsma_disk_displacement sf Cm coordinates disk pressure poisson young).2 i)
    ∧ (Geertsma_disk_stress sf Cm coordinates disk (-pressure) poisson young).1 i =
      -((Geertsma_disk_stress sf Cm coordinates disk pressure poisson young).1 i)
    ∧ (Geertsma_disk_stress sf Cm coordinates disk (-pressure) poisson young).2.1 i =
      -((Geertsma_disk_stress sf Cm coordinates disk pressure poisson young).2.1 i)
    ∧ (Geertsma_disk_stress sf Cm coordinates disk (-pressure) poisson young).2.2 i =
      -((Geertsma_disk_stress sf Cm coordinates disk pressure poisson young).2.2 i) := by
  refine ⟨?_, ?_, ?_, ?_, ?_⟩ <;>
    simp only [Geertsma_disk_displacement, Geertsma_disk_stress] <;> ring

/-- C2: in kernel `Int3`, the step terms use the Heaviside-at-origin = 0.5
convention: at `r = R` exactly both indicators evaluate to 0.5, the term
`[1(r>R) - 1(R>r)]*lamb/(2R)` vanishes and the indicator term `1(R>r)/R`
contributes `0.5/R`, leaving `Int3 q R R` equal to the regular term
`-q*sqrt(m)*K0/(2*pi*R*sqrt(r*R))` plus `0.5/R`. -/
theorem Int3_boundary_halves (sf : Ellip) (q R : ℝ) :
    np.heaviside (R - R) 0.5 = 0.5
    ∧ Int3 sf q R R =
      -q*Real.sqrt (modulus q R R)*sf.ellipk (modulus q R R)
          /(2*Real.pi*R*Real.sqrt (R*R))
        + 0.5/R := by
  constructor
  · unfold np.heaviside
    rw [sub_self]
    norm_num
  · simp only [Int3, modulus, sub_self]
    unfold np.heaviside
    norm_num

/-- C6: for all `(q, r, R)` with `R > 0`, `r ≥ 0`, `q ≥ 0`, the elliptic
modulus `m = 4*R*r/(q^2 + (r+R)^2)` computed at the top of every kernel
satisfies `0 ≤ m`, is strictly below 1 unless both `q = 0` and `r = R`,
and equals 1 exactly when `q = 0` and `r = R`. -/
theorem modulus_in_unit_interval (q r R : ℝ) (hR : 0 < R) (hr : 0 ≤ r)
    (hq : 0 ≤ q) :
    0 ≤ modulus q r R
    ∧ (¬(q = 0 ∧ r = R) → modulus q r R < 1)
    ∧ (modulus q r R = 1 ↔ (q = 0 ∧ r = R)) := by
  have hrR : 0 < r + R := by linarith
  have hd : 0 < q^2 + (r+R)^2 := by positivity
  refine ⟨?_, ?_, ?_⟩
  · exact div_nonneg (by positivity) hd.le
  · intro hne
    rw [modulus, div_lt_one hd]
    rcases not_and_or.mp hne with h | h
    · have hq2 : 0 < q^2 :=
        lt_of_le_of_ne (sq_nonneg q) (fun hc => (pow_ne_zero 2 h) hc.symm)
      nlinarith [sq_nonneg (r - R)]
    · have hr2 : 0 < (r - R)^2 :=
        lt_of_le_of_ne (sq_nonneg (r - R))
          (fun hc => (pow_ne_zero 2 (sub_ne_zero.mpr h)) hc.symm)
      nlinarith [sq_nonneg q]
  · rw [modulus, div_eq_one_iff_eq hd.ne']
    constructor
    · intro hEq
      have hq2 : q^2 = 0 :=
        le_antisymm (by nlinarith [sq_nonneg (r - R)]) (sq_nonneg q)
      have hr2 : (r - R)^2 = 0 := by nlinarith [sq_nonneg q]
      exact ⟨(pow_eq_zero_iff two_ne_zero).mp hq2,
        sub_eq_zero.mp ((pow_eq_zero_iff two_ne_zero).mp hr2)⟩
    · rintro ⟨rfl, rfl⟩
      ring

/-- Witness for C6 at the concrete input `q = 1`, `r = 2`, `R = 1`. -/
theorem modulus_in_unit_interval_witness :
    0 ≤ modulus 1 2 1
    ∧ (¬((1:ℝ) = 0 ∧ (2:ℝ) = 1) → modulus 1 2 1 < 1)
    ∧ (modulus 1 2 1 = 1 ↔ ((1:ℝ) = 0 ∧ (2:ℝ) = 1)) :=
  modulus_in_unit_interval 1 2 1 (by norm_num) (by norm_num) (by norm_num)

/-- C5: both checked entry points raise a validation error exactly when a
precondition is violated: the disk descriptor does not have exactly 5
values, the coordinate array does not have exactly 3 rows, or one of
pressure, poisson, young is not a scalar; on inputs satisfying all
preconditions no error is raised. -/
theorem checked_error_iff_precondition_violated (sf : Ellip)
    (Cm : ℝ → ℝ → ℝ) (coordinates : List (List ℝ)) (disk : List ℝ)
    (pressure poisson young : np.NpValue) :
    ((∃ e, Geertsma_disk_displacement_checked sf Cm coordinates disk
          pressure poisson young = Except.error e)
      ↔ (disk.length ≠ 5 ∨ coordinates.length ≠ 3
          ∨ np.isscalar pressure = false ∨ np.isscalar poisson = false
          ∨ np.isscalar young = false))
    ∧ ((∃ e, Geertsma_disk_stress_checked sf Cm coordinates disk
          pressure poisson young = Except.error e)
      ↔ (disk.length ≠ 5 ∨ coordinates.length ≠ 3
          ∨ np.isscalar pressure = false ∨ np.isscalar poisson = false
          ∨ np.isscalar young = false)) := by
  constructor <;>
  · rcases pressure with p | p <;> rcases poisson with nu | nu <;>
      rcases young with yng | yng <;>
      simp only [Geertsma_disk_displacement_checked,
        Geertsma_disk_stress_checked, np.isscalar] <;>
      split_ifs <;> simp_all

/-- C8: for every two evaluation points with the same vertical coordinate
and the same horizontal distance from the disk's vertical axis, the
displacement and stress functions return identical output values for those
two points. -/
theorem rotational_invariance {ι : Type} (sf : Ellip) (Cm : ℝ → ℝ → ℝ)
    (coordinates : Fin 3 → ι → ℝ) (disk : DiskDescriptor)
    (pressure poisson young : ℝ) (i j : ι)
    (hz : coordinates 2 i = coordinates 2 j)
    (hhor : Real.sqrt ((coordinates 0 i - disk.y0)^2
        + (coordinates 1 i - disk.x0)^2)
      = Real.sqrt ((coordinates 0 j - disk.y0)^2
        + (coordinates 1 j - disk.x0)^2)) :
    (Geertsma_disk_displacement sf Cm coordinates disk pressure poisson young).1 i =
      (Geertsma_disk_displacement sf Cm coordinates disk pressure poisson young).1 j
    ∧ (Geertsma_disk_displacement sf Cm coordinates disk pressure poisson young).2 i =
      (Geertsma_disk_displacement sf Cm coordinates disk pressure poisson young).2 j
    ∧ (Geertsma_disk_stress sf Cm coordinates disk pressure poisson young).1 i =
      (Geertsma_disk_stress sf Cm coordinates disk pressure poisson young).1 j
    ∧ (Geertsma_disk_stress sf Cm coordinates disk pressure poisson young).2.1 i =
      (Geertsma_disk_stress sf Cm coordinates disk pressure poisson young).2.1 j
    ∧ (Geertsma_disk_stress sf Cm coordinates disk pressure poisson young).2.2 i =
      (Geertsma_disk_stress sf Cm coordinates disk pressure poisson young).2.2 j := by
  have hA : (0:ℝ) ≤ (coordinates 0 i - disk.y0)^2
      + (coordinates 1 i - disk.x0)^2 := by positivity
  have hB : (0:ℝ) ≤ (coordinates 0 j - disk.y0)^2
      + (coordinates 1 j - disk.x0)^2 := by positivity
  have hsum : (coordinates 0 i - disk.y0)^2 + (coordinates 1 i - disk.x0)^2
      = (coordinates 0 j - disk.y0)^2 + (coordinates 1 j - disk.x0)^2 := by
    rw [← Real.sq_sqrt hA, ← Real.sq_sqrt hB, hhor]
  refine ⟨?_, ?_, ?_, ?_, ?_⟩ <;>
    simp only [Geertsma_disk_displacement, Geertsma_disk_stress] <;>
    rw [hz, hsum]

/-- Witness for C8: the points (3,0,5) and (0,3,5) of `coordsTwo`, related
by a quarter turn about the axis of the disk centered at the origin. -/
theorem rotational_invariance_witness :
    (Geertsma_disk_displacement sfZero (fun _ _ => 1) coordsTwo
        ⟨0, 0, 1, 1, 1⟩ 1 0 1).1 0 =
      (Geertsma_disk_displacement sfZero (fun _ _ => 1) coordsTwo
        ⟨0, 0, 1, 1, 1⟩ 1 0 1).1 1
    ∧ (Geertsma_disk_displacement sfZero (fun _ _ => 1) coordsTwo
        ⟨0, 0, 1, 1, 1⟩ 1 0 1).2 0 =
      (Geertsma_disk_displacement sfZero (fun _ _ => 1) coordsTwo
        ⟨0, 0, 1, 1, 1⟩ 1 0 1).2 1
    ∧ (Geertsma_disk_stress sfZero (fun _ _ => 1) coordsTwo
        ⟨0, 0, 1, 1, 1⟩ 1 0 1).1 0 =
      (Geertsma_disk_stress sfZero (fun _ _ => 1) coordsTwo
        ⟨0, 0, 1, 1, 1⟩ 1 0 1).1 1
    ∧ (Geertsma_disk_stress sfZero (fun _ _ => 1) coordsTwo
        ⟨0, 0, 1, 1, 1⟩ 1 0 1).2.1 0 =
      (Geertsma_disk_stress sfZero (fun _ _ => 1) coordsTwo
        ⟨0, 0, 1, 1, 1⟩ 1 0 1).2.1 1
    ∧ (Geertsma_disk_stress sfZero (fun _ _ => 1) coordsTwo
        ⟨0, 0, 1, 1, 1⟩ 1 0 1).2.2 0 =
      (Geertsma_disk_stress sfZero (fun _ _ => 1) coordsTwo
        ⟨0, 0, 1, 1, 1⟩ 1 0 1).2.2 1 :=
  rotational_invariance sfZero (fun _ _ => 1) coordsTwo ⟨0, 0, 1, 1, 1⟩ 1 0 1
    0 1 (by norm_num [coordsTwo, Fin.ext_iff])
    (by norm_num [coordsTwo, Fin.ext_iff])

end GeertsmaDisk
